import Mathlib

/-!
Shallow embedding of the BESTPOOL core pipeline:
* `PoolDataAggregator` (weight adjustment, hedge strategy, normalization,
  allocation, portfolio yield) over exact rationals,
* the `usePoolRecommendations` input guard,
* `PriceWebSocketService` (reconnect state machine, tick simulation,
  price-alert check),
* `OrcaClient` (impermanent-loss formula over the reals, freshness-bounded
  cache).

JavaScript numbers are modelled by `ℚ` (or `ℝ` where `Math.sqrt` appears);
division by zero yields `0` in this model where JavaScript would produce
`Infinity`/`NaN` — every theorem below that touches such a case is stated so
that the conclusion also reflects the JavaScript outcome (both violate the
property at issue, or the case is excluded by hypothesis).  Weight records
(`Record<string, number>`) are modelled as functions `String → ℚ` together
with the key list `(pools.map poolId).dedup`; this is faithful whenever the
selected pool ids are distinct, which the relevant theorems assume via a
`Nodup` hypothesis.
-/

namespace BestPool

/-- Risk tier of a pool (`riskLevel` in `config/pools`), also reused as the
caller's risk tolerance selector. -/
inductive RiskLevel
  | low
  | medium
  | high
deriving DecidableEq, Repr

/-- Hedge classification of a pool (`hedgeType` in `config/pools`). -/
inductive HedgeType
  | bluechip
  | stablecoin
  | hedge
deriving DecidableEq, Repr

/-- The fields of `AggregatedPoolData` that the allocation pipeline reads or
writes.  `allocationSuggestion` is `some (amount, percentage)` once
`calculateOptimalAllocations` has run. -/
structure AggPool where
  poolId : String
  priceChange24h : ℚ
  apy : ℚ
  riskLevel : RiskLevel
  hedgeType : HedgeType
  allocationSuggestion : Option (ℚ × ℚ) := none
deriving DecidableEq, Repr

/-- `DEFAULT_ALLOCATION_WEIGHTS` from `config/pools` (the pools config file
is concatenated into `src/navigation/AppNavigator.tsx` in this source drop):
the balanced-strategy default weight per pair — SOL 25%, cbBTC 20%, WETH 20%,
EURC 20%, USDT 15%; any other key is absent. -/
def DEFAULT_ALLOCATION_WEIGHTS : String → Option ℚ := fun pid =>
  if pid = "SOL_USDC" then some (25/100)
  else if pid = "CBBTC_USDC" then some (20/100)
  else if pid = "WETH_USDC" then some (20/100)
  else if pid = "EURC_USDC" then some (20/100)
  else if pid = "USDT_USDC" then some (15/100)
  else none

/-- `PoolDataAggregator.adjustWeightsForRiskTolerance`, as the weight-record
function: the value the record holds at key `pid` after the `forEach` loop.
`low`: stablecoin/hedge pools get `0.35/2`, the rest `0.30/(n-2)`;
`high`: high-risk pools get `0.50/2`, hedge pools `0.15`, the rest
`0.35/(n-3)`; `medium`: the registry default with JavaScript `|| 0.20`
fallback (which also replaces a configured `0`).  Caveat: when a pool-count
denominator `n-2`/`n-3` is zero, this model yields `0` where JavaScript
yields `Infinity` (and `NaN` after normalization); theorems about the
normalized sums therefore carry a `noZeroWeightDenominators` hypothesis
confining them to the domain where the two semantics agree. -/
def adjustWeightsForRiskTolerance (pools : List AggPool) (riskTolerance : RiskLevel)
    (defaults : String → Option ℚ) (pid : String) : ℚ :=
  match pools.find? (fun p => p.poolId == pid) with
  | none => 0
  | some p =>
    let totalPools : ℚ := pools.length
    match riskTolerance with
    | RiskLevel.low =>
        if p.hedgeType = HedgeType.stablecoin ∨ p.hedgeType = HedgeType.hedge then
          (35/100) / 2
        else
          (30/100) / (totalPools - 2)
    | RiskLevel.high =>
        if p.riskLevel = RiskLevel.high then (50/100) / 2
        else if p.hedgeType = HedgeType.hedge then 15/100
        else (35/100) / (totalPools - 3)
    | RiskLevel.medium =>
        match defaults pid with
        | some d => if d = 0 then 20/100 else d
        | none => 20/100

/-- The inputs on which `adjustWeightsForRiskTolerance` never divides by a
zero pool count, i.e. on which the rational model and JavaScript
floating-point agree (no `Infinity` weight arises): under `low`, a selected
pool that is neither stablecoin nor hedge forces the pool count away from 2;
under `high`, a selected pool that is neither high-risk nor hedge forces it
away from 3; `medium` performs no such division. -/
def noZeroWeightDenominators (pools : List AggPool) (riskTolerance : RiskLevel) : Prop :=
  match riskTolerance with
  | RiskLevel.low =>
      (∃ p ∈ pools,
        ¬(p.hedgeType = HedgeType.stablecoin ∨ p.hedgeType = HedgeType.hedge)) →
        pools.length ≠ 2
  | RiskLevel.high =>
      (∃ p ∈ pools, p.riskLevel ≠ RiskLevel.high ∧ p.hedgeType ≠ HedgeType.hedge) →
        pools.length ≠ 3
  | RiskLevel.medium => True

/-- Average of `|priceChange24h|` over the pools
(`pools.reduce(...) / pools.length` in `applyHedgeStrategy`). -/
def avgVolatility (pools : List AggPool) : ℚ :=
  (pools.map fun p => |p.priceChange24h|).sum / (pools.length : ℚ)

/-- The mutation step of `PoolDataAggregator.applyHedgeStrategy` (before
normalization): when average volatility exceeds 5 and the `EURC_USDC` pool is
present, its weight becomes `min (w + 0.10) 0.40` and every other selected
pool's weight becomes `max (w - 0.10/(n-1)) 0.05`. -/
def applyHedgeBoost (pools : List AggPool) (w : String → ℚ) : String → ℚ :=
  if avgVolatility pools > 5 ∧ (pools.any fun p => p.poolId == "EURC_USDC") then
    fun pid =>
      if pid == "EURC_USDC" then
        min (w "EURC_USDC" + 10/100) (40/100)
      else if pools.any fun p => p.poolId == pid then
        max (w pid - (10/100) / ((pools.length : ℚ) - 1)) (5/100)
      else w pid
  else w

/-- Key set of the weight record: the distinct pool ids. -/
def poolKeys (pools : List AggPool) : List String :=
  (pools.map fun p => p.poolId).dedup

/-- Sum of the weight record's values (`Object.values(weights).reduce(...)`). -/
def totalWeight (pools : List AggPool) (w : String → ℚ) : ℚ :=
  ((poolKeys pools).map w).sum

/-- The normalization loop at the end of `applyHedgeStrategy`: every weight is
divided by the total. -/
def normalizeWeights (pools : List AggPool) (w : String → ℚ) : String → ℚ :=
  fun pid => w pid / totalWeight pools w

/-- The final weight map produced by `applyHedgeStrategy` on the output of
`adjustWeightsForRiskTolerance`. -/
def finalWeights (pools : List AggPool) (riskTolerance : RiskLevel)
    (defaults : String → Option ℚ) : String → ℚ :=
  normalizeWeights pools
    (applyHedgeBoost pools (adjustWeightsForRiskTolerance pools riskTolerance defaults))

/-- `PoolDataAggregator.calculateOptimalAllocations`: attach
`allocationSuggestion = (totalInvestment * weight, weight * 100)` to every
selected pool. -/
def calculateOptimalAllocations (pools : List AggPool) (totalInvestment : ℚ)
    (riskTolerance : RiskLevel) (defaults : String → Option ℚ) : List AggPool :=
  let fw := finalWeights pools riskTolerance defaults
  pools.map fun p =>
    { p with allocationSuggestion := some (totalInvestment * fw p.poolId, fw p.poolId * 100) }

/-- The amount stored in a pool's `allocationSuggestion`
(`pool.allocationSuggestion?.amount || 0`). -/
def allocationAmount (p : AggPool) : ℚ :=
  (p.allocationSuggestion.map Prod.fst).getD 0

/-- The percentage stored in a pool's `allocationSuggestion`
(`pool.allocationSuggestion?.percentage || 0`). -/
def allocationPercentage (p : AggPool) : ℚ :=
  (p.allocationSuggestion.map Prod.snd).getD 0

/-- `PoolDataAggregator.calculateExpectedDailyYield`: the `reduce` that adds
`allocation * apy / 365 / 100` per pool. -/
def calculateExpectedDailyYield (pools : List AggPool) : ℚ :=
  pools.foldl (fun total p => total + allocationAmount p * p.apy / 365 / 100) 0

/-- `PoolDataAggregator.calculateHedgeRatio`: summed allocation percentage of
hedge/stablecoin pools. -/
def calculateHedgeRatio (pools : List AggPool) : ℚ :=
  ((pools.filter fun p =>
      p.hedgeType = HedgeType.hedge ∨ p.hedgeType = HedgeType.stablecoin).map
    allocationPercentage).sum

/-- The fields of `PortfolioRecommendation` that this development reasons
about. -/
structure PortfolioRecommendation where
  totalInvestment : ℚ
  expectedDailyYield : ℚ
  expectedDailyYieldPercentage : ℚ
  pools : List AggPool
  hedgeRatio : ℚ
deriving DecidableEq, Repr

/-- `PoolDataAggregator.generateRecommendations`, parametrized by the list of
pools that resolved in step 2 (`getPoolsData` is the IO boundary).  The source
performs no input validation and has no failure path: it always assembles a
`PortfolioRecommendation`. -/
def generateRecommendations (resolvedPools : List AggPool) (totalInvestment : ℚ)
    (riskTolerance : RiskLevel) (defaults : String → Option ℚ) :
    PortfolioRecommendation :=
  let allocated := calculateOptimalAllocations resolvedPools totalInvestment
    riskTolerance defaults
  let expectedDailyYield := calculateExpectedDailyYield allocated
  { totalInvestment := totalInvestment
    expectedDailyYield := expectedDailyYield
    expectedDailyYieldPercentage := expectedDailyYield / totalInvestment * 100
    pools := allocated
    hedgeRatio := calculateHedgeRatio allocated }

/-- The guard in `usePoolRecommendations.fetchRecommendations`:
`if (!totalInvestment || !selectedPoolIds.length)` — by JavaScript truthiness
this rejects exactly a zero investment or an empty selection (NaN is outside
the rational model). -/
def fetchRecommendationsRejects (totalInvestment : ℚ)
    (selectedPoolIds : List String) : Bool :=
  totalInvestment == 0 || selectedPoolIds.isEmpty

/-! ### PriceWebSocketService: reconnect state machine -/

/-- State of `PriceWebSocketService` relevant to the connect/reconnect
lifecycle.  `pendingRetry` records whether a `setTimeout(connect, delay)` is
outstanding. -/
structure WSState where
  isConnected : Bool
  reconnectAttempts : ℕ
  pendingRetry : Bool
deriving DecidableEq, Repr

/-- Lifecycle events observable by listeners (the `retryScheduled` entry
records the computed backoff delay of the scheduled timer; the source logs it
and passes it to `setTimeout`).  `connectionExhausted` is the
`emit('error', ...)` raised when the attempt budget is spent. -/
inductive WSEvent
  | connected
  | retryScheduled (delayMs : ℕ)
  | connectionExhausted
deriving DecidableEq, Repr

/-- `maxReconnectAttempts` from the source. -/
def maxReconnectAttempts : ℕ := 5

/-- `PriceWebSocketService.handleConnectionError`: if the attempt counter has
reached the budget, emit the fatal event and stop; otherwise increment the
counter and schedule a retry after `min (1000·2^attempts) 30000` ms. -/
def handleConnectionError (s : WSState) : WSState × List WSEvent :=
  if s.reconnectAttempts ≥ maxReconnectAttempts then
    ({ s with pendingRetry := false }, [WSEvent.connectionExhausted])
  else
    let n := s.reconnectAttempts + 1
    ({ s with reconnectAttempts := n, pendingRetry := true },
      [WSEvent.retryScheduled (min (1000 * 2 ^ n) 30000)])

/-- One invocation of `PriceWebSocketService.connect`, parametrized by whether
the subscription setup succeeds: a no-op when already connected, otherwise
either transition to Connected (resetting the attempt counter) or run
`handleConnectionError`. -/
def connectAttempt (s : WSState) (succeeds : Bool) : WSState × List WSEvent :=
  if s.isConnected then (s, [])
  else if succeeds then
    ({ isConnected := true, reconnectAttempts := 0, pendingRetry := false },
      [WSEvent.connected])
  else handleConnectionError s

/-- Run a sequence of connect outcomes (the initial explicit `connect()`
followed by the timer-driven retries), accumulating emitted events. -/
def runConnectAttempts (s : WSState) (outcomes : List Bool) :
    WSState × List WSEvent :=
  outcomes.foldl
    (fun acc b =>
      let step := connectAttempt acc.1 b
      (step.1, acc.2 ++ step.2))
    (s, [])

/-- The freshly constructed service: disconnected, zero attempts, no timer. -/
def initialWSState : WSState := ⟨false, 0, false⟩

/-! ### PriceWebSocketService: ticks and price alerts -/

/-- The `PriceUpdate` record emitted on each simulated tick. -/
structure PriceUpdateRec where
  poolId : String
  price : ℚ
  change : ℚ
deriving DecidableEq, Repr

/-- Severity attached to a price alert. -/
inductive AlertSeverity
  | medium
  | high
deriving DecidableEq, Repr

/-- Payload of a `priceAlert` event. -/
structure PriceAlertRec where
  poolId : String
  severity : AlertSeverity
deriving DecidableEq, Repr

/-- `PriceWebSocketService.checkPriceAlert`: emits an alert exactly when the
tick's percent-change magnitude exceeds 5, with severity `high` above 10 and
`medium` otherwise.  (In the source this private method has no caller.) -/
def checkPriceAlert (u : PriceUpdateRec) : Option PriceAlertRec :=
  if |u.change| > 5 then
    some ⟨u.poolId, if |u.change| > 10 then AlertSeverity.high else AlertSeverity.medium⟩
  else none

/-- Events the stream can emit for one pool on one simulation round. -/
inductive StreamEvent
  | priceUpdate (u : PriceUpdateRec)
  | volumeUpdate (poolId : String) (volume24h : ℚ)
  | priceAlert (a : PriceAlertRec)
deriving DecidableEq, Repr

/-- Recognizer for `priceAlert` events. -/
def StreamEvent.isPriceAlert : StreamEvent → Bool
  | StreamEvent.priceAlert _ => true
  | _ => false

/-- One subscribed pool's slice of a `startPriceUpdateSimulation` interval
round, with the `Math.random()` draws `r1` (price movement, in `[0,1]`),
`r2` (volume-emission coin), `r3` (volume value) made explicit: the change is
`(r1 - 0.5) * 0.01`, a `priceUpdate` is always emitted, and a `volumeUpdate`
follows when `r2 > 0.7`.  No other event is produced — in particular the
round never invokes `checkPriceAlert`. -/
def simulationTickEvents (poolId : String) (basePrice r1 r2 r3 : ℚ) :
    List StreamEvent :=
  let change := (r1 - 1/2) * (1/100)
  let u : PriceUpdateRec := ⟨poolId, basePrice * (1 + change), change * 100⟩
  [StreamEvent.priceUpdate u] ++
    (if r2 > 7/10 then [StreamEvent.volumeUpdate poolId (r3 * 10000000 + 1000000)]
     else [])

/-! ### OrcaClient: impermanent loss -/

/-- `OrcaClient.calculateImpermanentLoss`: with `r = current/initial`, returns
`(2·√r/(1+r) - 1) · 100`.  Faithful to the source for `r ≥ 0`; for `r < 0`
JavaScript's `Math.sqrt` yields `NaN`, which has no counterpart in `ℝ`, so
theorems below stay in the `r ≥ 0` regime. -/
noncomputable def calculateImpermanentLoss
    (initialPriceRatio currentPriceRatio : ℝ) : ℝ :=
  let priceRatioChange := currentPriceRatio / initialPriceRatio
  (2 * Real.sqrt priceRatioChange / (1 + priceRatioChange) - 1) * 100

/-! ### OrcaClient: freshness-bounded cache -/

/-- A stored cache record: the payload plus the `Date.now()` timestamp written
by `saveToCache`. -/
structure CacheEntry (α : Type) where
  data : α
  timestamp : ℤ
deriving DecidableEq, Repr

/-- `OrcaClient.getFromCache` on one key: returns the cached payload and the
key's state after the call.  A missing or disabled cache yields `none`; an
entry older than `ttl` is removed (`AsyncStorage.removeItem`) and reported as
a miss; otherwise the payload is returned and the entry kept. -/
def getFromCache {α : Type} (enabled : Bool) (entry : Option (CacheEntry α))
    (now ttl : ℤ) : Option α × Option (CacheEntry α) :=
  if !enabled then (none, entry)
  else
    match entry with
    | none => (none, none)
    | some e =>
      if now - e.timestamp > ttl then (none, none)
      else (some e.data, some e)

/-- `OrcaClient.saveToCache` on one key: store the payload with the current
timestamp (a no-op when caching is disabled). -/
def saveToCache {α : Type} (enabled : Bool) (now : ℤ) (data : α)
    (entry : Option (CacheEntry α)) : Option (CacheEntry α) :=
  if enabled then some ⟨data, now⟩ else entry

/-- `CACHE_TTL` from the source: 30 seconds, in milliseconds. -/
def CACHE_TTL : ℤ := 30000

/-- `OrcaClient.getPoolData` on one pool key, parametrized by the upstream
world: `accountExists` is whether `getAccountInfo` finds the pool account and
`upstreamData` the payload `fetchPoolDataFromAPI` would produce.  Returns the
result, the key's cache state after the call, and whether the upstream source
was contacted. -/
def getPoolData {α : Type} (enabled : Bool) (entry : Option (CacheEntry α))
    (now : ℤ) (accountExists : Bool) (upstreamData : α) :
    Option α × Option (CacheEntry α) × Bool :=
  match getFromCache enabled entry now CACHE_TTL with
  | (some d, entry') => (some d, entry', false)
  | (none, entry') =>
    if !accountExists then (none, entry', true)
    else (some upstreamData, saveToCache enabled now upstreamData entry', true)

/-! ### Concrete pool data used by witnesses and counterexamples.
The field values follow the mock records in `orcaClient.ts` and the hedge
classes named by the spec (SOL/CBBTC bluechip, EURC the designated hedge
pair). -/

/-- SOL/USDC with a quiet market (1% daily move). -/
def solPoolW : AggPool :=
  { poolId := "SOL_USDC", priceChange24h := 1, apy := 124/10
    riskLevel := RiskLevel.high, hedgeType := HedgeType.bluechip }

/-- EURC/USDC (the designated hedge pair) with a quiet market. -/
def eurcPoolW : AggPool :=
  { poolId := "EURC_USDC", priceChange24h := -1, apy := 42/10
    riskLevel := RiskLevel.low, hedgeType := HedgeType.hedge }

/-- SOL/USDC in a volatile market (12% daily move). -/
def solPoolV : AggPool :=
  { poolId := "SOL_USDC", priceChange24h := 12, apy := 124/10
    riskLevel := RiskLevel.high, hedgeType := HedgeType.bluechip }

/-- cbBTC/USDC with a flat market. -/
def cbbtcPoolV : AggPool :=
  { poolId := "CBBTC_USDC", priceChange24h := 0, apy := 87/10
    riskLevel := RiskLevel.medium, hedgeType := HedgeType.bluechip }

/-- EURC/USDC in a volatile market. -/
def eurcPoolV : AggPool :=
  { poolId := "EURC_USDC", priceChange24h := 6, apy := 42/10
    riskLevel := RiskLevel.low, hedgeType := HedgeType.hedge }

/-- USDT/USDC (stablecoin class) with a flat market. -/
def usdtPoolW : AggPool :=
  { poolId := "USDT_USDC", priceChange24h := 0, apy := 31/10
    riskLevel := RiskLevel.low, hedgeType := HedgeType.stablecoin }

/-- A flat candidate weight record used to probe `applyHedgeBoost`. -/
def flatWeights : String → ℚ := fun _ => 20/100

/-- A registry-default table giving every pair weight `1/4` (used by
witnesses that need round numbers). -/
def evenDefaults : String → Option ℚ := fun _ => some (1/4)

/-! ### Helper lemmas -/

/-- Summing a list after dividing every mapped value by a constant is the
divided sum. -/
theorem sum_map_div {α : Type} (l : List α) (f : α → ℚ) (c : ℚ) :
    (l.map fun x => f x / c).sum = (l.map f).sum / c := by
  induction l with
  | nil => simp
  | cons a t ih => simp only [List.map_cons, List.sum_cons, ih, div_add_div_same]

/-- Summing a list after scaling every mapped value by a constant is the
scaled sum. -/
theorem sum_map_mul_const {α : Type} (l : List α) (f : α → ℚ) (c : ℚ) :
    (l.map fun x => c * f x).sum = c * (l.map f).sum := by
  induction l with
  | nil => simp
  | cons a t ih => simp only [List.map_cons, List.sum_cons, ih, mul_add]

/-- A `foldl` that only accumulates additions is the sum of the mapped
list. -/
theorem foldl_add_map_sum (g : AggPool → ℚ) (a : ℚ) (l : List AggPool) :
    l.foldl (fun total p => total + g p) a = a + (l.map g).sum := by
  induction l generalizing a with
  | nil => simp
  | cons p t ih => simp [ih, add_assoc]

/-! ### C1 -/

/-- C1 (amended): for every risk tolerance and pool set with distinct ids,
*provided no risk-tolerance branch divides by a zero pool count* (so no
JavaScript `Infinity` weight arises and the rational model is faithful) *and
the pre-normalization total weight is nonzero*, the final weights sum to
exactly 1 and the allocated amounts sum to exactly `totalInvestment`.  (The
unamended claim fails on the excluded inputs: with every branch division
zero the weights collapse and the sums are 0 here and `NaN` in JavaScript —
see the counterexample — and with a mixed selection such as one stablecoin
plus one bluechip pool at `low`, JavaScript's `0.30/0 = Infinity` likewise
normalizes to `NaN` sums.) -/
theorem claim1_allocations_sum (pools : List AggPool) (totalInvestment : ℚ)
    (riskTolerance : RiskLevel) (defaults : String → Option ℚ)
    (hnd : (pools.map fun p => p.poolId).Nodup)
    (_hden : noZeroWeightDenominators pools riskTolerance)
    (hT : totalWeight pools (applyHedgeBoost pools
      (adjustWeightsForRiskTolerance pools riskTolerance defaults)) ≠ 0) :
    (pools.map fun p => finalWeights pools riskTolerance defaults p.poolId).sum = 1 ∧
    ((calculateOptimalAllocations pools totalInvestment riskTolerance defaults).map
      allocationAmount).sum = totalInvestment := by
  set w := applyHedgeBoost pools (adjustWeightsForRiskTolerance pools riskTolerance defaults)
    with hw
  have hkeys : poolKeys pools = pools.map fun p => p.poolId := by
    simp [poolKeys, List.dedup_eq_self.mpr hnd]
  have htot : (pools.map fun p => w p.poolId).sum = totalWeight pools w := by
    rw [totalWeight, hkeys, List.map_map]
    rfl
  have hsum1 : (pools.map fun p => finalWeights pools riskTolerance defaults p.poolId).sum
      = 1 := by
    have hfw : (pools.map fun p => finalWeights pools riskTolerance defaults p.poolId)
        = pools.map fun p => w p.poolId / totalWeight pools w := rfl
    rw [hfw, sum_map_div pools (fun p => w p.poolId) (totalWeight pools w), htot,
      div_self hT]
  refine ⟨hsum1, ?_⟩
  have hmap : (calculateOptimalAllocations pools totalInvestment riskTolerance defaults).map
      allocationAmount
      = pools.map fun p =>
          totalInvestment * finalWeights pools riskTolerance defaults p.poolId := by
    simp [calculateOptimalAllocations, allocationAmount, List.map_map, Function.comp]
  rw [hmap,
    sum_map_mul_const pools (fun p => finalWeights pools riskTolerance defaults p.poolId)
      totalInvestment,
    hsum1, mul_one]

/-- C1 witness: USDT (stablecoin), EURC (hedge) and SOL (bluechip) at `low`
risk — three pools, so the `0.30/(n−2)` division is exercised with a nonzero
denominator (weights 0.175, 0.175, 0.30, total 0.65) — normalize to weights
summing to 1 and amounts summing to the 10000 invested. -/
theorem claim1_allocations_sum_witness :
    (([usdtPoolW, eurcPoolW, solPoolW]).map fun p =>
      finalWeights [usdtPoolW, eurcPoolW, solPoolW] RiskLevel.low
        DEFAULT_ALLOCATION_WEIGHTS p.poolId).sum = 1 ∧
    ((calculateOptimalAllocations [usdtPoolW, eurcPoolW, solPoolW] 10000 RiskLevel.low
      DEFAULT_ALLOCATION_WEIGHTS).map allocationAmount).sum = 10000 :=
  claim1_allocations_sum [usdtPoolW, eurcPoolW, solPoolW] 10000 RiskLevel.low
    DEFAULT_ALLOCATION_WEIGHTS (by decide) (by intro h; decide)
    (by
      have hb : applyHedgeBoost [usdtPoolW, eurcPoolW, solPoolW]
          (adjustWeightsForRiskTolerance [usdtPoolW, eurcPoolW, solPoolW] RiskLevel.low
            DEFAULT_ALLOCATION_WEIGHTS)
          = adjustWeightsForRiskTolerance [usdtPoolW, eurcPoolW, solPoolW] RiskLevel.low
            DEFAULT_ALLOCATION_WEIGHTS := by
        rw [applyHedgeBoost, if_neg]
        rintro ⟨h5, -⟩
        norm_num [avgVolatility, usdtPoolW, eurcPoolW, solPoolW] at h5
      have h1 : adjustWeightsForRiskTolerance [usdtPoolW, eurcPoolW, solPoolW]
          RiskLevel.low DEFAULT_ALLOCATION_WEIGHTS "USDT_USDC" = 35/200 := by
        simp +decide [adjustWeightsForRiskTolerance, usdtPoolW, eurcPoolW, solPoolW,
          List.find?]
        norm_num
      have h2 : adjustWeightsForRiskTolerance [usdtPoolW, eurcPoolW, solPoolW]
          RiskLevel.low DEFAULT_ALLOCATION_WEIGHTS "EURC_USDC" = 35/200 := by
        simp +decide [adjustWeightsForRiskTolerance, usdtPoolW, eurcPoolW, solPoolW,
          List.find?]
        norm_num
      have h3 : adjustWeightsForRiskTolerance [usdtPoolW, eurcPoolW, solPoolW]
          RiskLevel.low DEFAULT_ALLOCATION_WEIGHTS "SOL_USDC" = 30/100 := by
        simp +decide [adjustWeightsForRiskTolerance, usdtPoolW, eurcPoolW, solPoolW,
          List.find?]
        norm_num
      have hk : poolKeys [usdtPoolW, eurcPoolW, solPoolW]
          = ["USDT_USDC", "EURC_USDC", "SOL_USDC"] := by decide
      rw [totalWeight, hb, hk]
      simp only [List.map_cons, List.map_nil, List.sum_cons, List.sum_nil]
      rw [h1, h2, h3]
      norm_num)

/-- C1 refuted as stated: with risk tolerance `low` and a selected set of two
bluechip pairs (neither stablecoin nor hedge), the branch weight
`0.30 / (totalPools - 2)` divides by zero, every weight collapses, and the
normalized weights sum to 0 — not 1 — while the allocated amounts sum to 0,
not to the 10000 invested.  (In JavaScript the same input makes the weights
`Infinity`, the normalized weights `NaN`, and both sums `NaN`; either way the
claimed sums fail.) -/
theorem claim1_counterexample :
    (([solPoolW, cbbtcPoolV]).map fun p =>
      finalWeights [solPoolW, cbbtcPoolV] RiskLevel.low DEFAULT_ALLOCATION_WEIGHTS
        p.poolId).sum = 0 ∧
    ((calculateOptimalAllocations [solPoolW, cbbtcPoolV] 10000 RiskLevel.low
      DEFAULT_ALLOCATION_WEIGHTS).map allocationAmount).sum = 0 ∧
    (0 : ℚ) ≠ 1 ∧ (0 : ℚ) ≠ 10000 := by
  refine ⟨?_, ?_, by norm_num, by norm_num⟩ <;>
    simp +decide [finalWeights, normalizeWeights, totalWeight, poolKeys,
      applyHedgeBoost, avgVolatility, adjustWeightsForRiskTolerance,
      DEFAULT_ALLOCATION_WEIGHTS, calculateOptimalAllocations, allocationAmount,
      solPoolW, cbbtcPoolV, List.find?, List.dedup, List.pwFilter]

/-! ### C2 -/

/-- C2 (amended): the pipeline never fails.  The only input validation is the
hook's guard, which rejects exactly a zero `totalInvestment` or an empty
selection (a negative investment passes); `generateRecommendations` itself
always returns a full `PortfolioRecommendation`, one entry per resolved pair,
and a zero-pair resolution yields an ordinary result with an empty pool list
and zero yield rather than a `NoDataAvailable` failure. -/
theorem claim2_no_failure_paths (t : ℚ) (ids : List String)
    (resolved : List AggPool) (riskTolerance : RiskLevel)
    (defaults : String → Option ℚ) :
    (fetchRecommendationsRejects t ids = true ↔ (t = 0 ∨ ids = [])) ∧
    (generateRecommendations resolved t riskTolerance defaults).pools.length
      = resolved.length ∧
    (generateRecommendations [] t riskTolerance defaults).pools = [] ∧
    (generateRecommendations [] t riskTolerance defaults).expectedDailyYield = 0 := by
  refine ⟨?_, ?_, ?_, ?_⟩
  · simp [fetchRecommendationsRejects]
  · simp [generateRecommendations, calculateOptimalAllocations]
  · simp [generateRecommendations, calculateOptimalAllocations]
  · simp [generateRecommendations, calculateOptimalAllocations,
      calculateExpectedDailyYield]

/-- C2 refuted as stated: a negative `totalInvestment` of −100 passes the
guard and `generateRecommendations` returns a fully populated result for it
instead of an `InvalidInput` failure; with zero resolved pairs it returns an
ordinary recommendation with an empty pool list instead of a
`NoDataAvailable` failure. -/
theorem claim2_counterexample :
    fetchRecommendationsRejects (-100) ["SOL_USDC"] = false ∧
    (generateRecommendations [solPoolW] (-100) RiskLevel.medium
      DEFAULT_ALLOCATION_WEIGHTS).pools.length = 1 ∧
    (generateRecommendations [] 100 RiskLevel.medium
      DEFAULT_ALLOCATION_WEIGHTS).pools = [] := by
  refine ⟨?_, ?_, ?_⟩
  · norm_num [fetchRecommendationsRejects]
  · simp [generateRecommendations, calculateOptimalAllocations]
  · simp [generateRecommendations, calculateOptimalAllocations]

/-! ### C4 -/

/-- C4: the portfolio-level expected daily yield in the returned
recommendation equals the sum over its pools of
`amount × annualizedYield / 365`, where the annualized yield rate is the
pool's `apy` field divided by 100 (the source stores `apy` in percent). -/
theorem claim4_expected_daily_yield (resolved : List AggPool) (t : ℚ)
    (riskTolerance : RiskLevel) (defaults : String → Option ℚ) :
    (generateRecommendations resolved t riskTolerance defaults).expectedDailyYield
      = (((generateRecommendations resolved t riskTolerance defaults).pools).map
          fun p => allocationAmount p * (p.apy / 100) / 365).sum := by
  have key : ∀ l : List AggPool, calculateExpectedDailyYield l
      = (l.map fun p => allocationAmount p * (p.apy / 100) / 365).sum := by
    intro l
    have h : calculateExpectedDailyYield l
        = 0 + (l.map fun p => allocationAmount p * p.apy / 365 / 100).sum :=
      foldl_add_map_sum (fun p => allocationAmount p * p.apy / 365 / 100) 0 l
    rw [h, zero_add]
    have hfun : (fun p : AggPool => allocationAmount p * p.apy / 365 / 100)
        = fun p : AggPool => allocationAmount p * (p.apy / 100) / 365 := by
      funext p
      ring
    rw [hfun]
  simp only [generateRecommendations]
  exact key _

/-! ### C10 -/

/-- C10: in every pool returned by the allocation computation, the suggested
amount and percentage are consistent:
`amount = totalInvestment × (percentage / 100)`. -/
theorem claim10_amount_percentage_consistent (pools : List AggPool) (t : ℚ)
    (riskTolerance : RiskLevel) (defaults : String → Option ℚ) (p : AggPool)
    (hp : p ∈ calculateOptimalAllocations pools t riskTolerance defaults)
    (a pct : ℚ) (hs : p.allocationSuggestion = some (a, pct)) :
    a = t * (pct / 100) := by
  simp only [calculateOptimalAllocations, List.mem_map] at hp
  obtain ⟨q, hq, rfl⟩ := hp
  simp only [Option.some.injEq, Prod.mk.injEq] at hs
  obtain ⟨ha, hpct⟩ := hs
  rw [← ha, ← hpct]
  ring

/-- C10 witness: with two pools given even default weights at medium risk,
the SOL/USDC entry carries `amount = 5000` and `percentage = 50`, and
`5000 = 10000 × (50 / 100)`. -/
theorem claim10_witness : (5000 : ℚ) = 10000 * (50 / 100) :=
  claim10_amount_percentage_consistent [solPoolW, eurcPoolW] 10000 RiskLevel.medium
    evenDefaults { solPoolW with allocationSuggestion := some (5000, 50) }
    (by
      simp +decide [calculateOptimalAllocations, finalWeights, normalizeWeights,
        totalWeight, poolKeys, applyHedgeBoost, avgVolatility,
        adjustWeightsForRiskTolerance, evenDefaults, solPoolW, eurcPoolW,
        List.find?, List.dedup, List.pwFilter]
      norm_num)
    5000 50 rfl

/-! ### C3 -/

/-- C3 (amended): the hedge adjustment mutates the weights exactly when the
average absolute 24h change exceeds 5 *and* the designated hedge pair
`EURC_USDC` is among the resolved pools.  When it applies, the hedge pair's
weight becomes `min (w + 0.10) 0.40` — a genuine 10-percentage-point increase
whenever its previous weight is at most 30%, and never above 40% — and every
other resolved pool's weight becomes `max (w − 0.10/(n−1)) 0.05`, never below
the 5% floor. -/
theorem claim3_hedge_boost (pools : List AggPool) (w : String → ℚ)
    (hvol : avgVolatility pools > 5)
    (hmem : (pools.any fun p => p.poolId == "EURC_USDC") = true) :
    applyHedgeBoost pools w "EURC_USDC" = min (w "EURC_USDC" + 10/100) (40/100) ∧
    applyHedgeBoost pools w "EURC_USDC" ≤ 40/100 ∧
    (w "EURC_USDC" ≤ 30/100 →
      applyHedgeBoost pools w "EURC_USDC" = w "EURC_USDC" + 10/100) ∧
    (∀ p ∈ pools, p.poolId ≠ "EURC_USDC" →
      applyHedgeBoost pools w p.poolId
          = max (w p.poolId - (10/100) / ((pools.length : ℚ) - 1)) (5/100) ∧
        5/100 ≤ applyHedgeBoost pools w p.poolId) := by
  have hcond : avgVolatility pools > 5 ∧ (pools.any fun p => p.poolId == "EURC_USDC") = true :=
    ⟨hvol, hmem⟩
  have heurc : applyHedgeBoost pools w "EURC_USDC"
      = min (w "EURC_USDC" + 10/100) (40/100) := by
    rw [applyHedgeBoost, if_pos hcond]
    simp
  refine ⟨heurc, ?_, ?_, ?_⟩
  · rw [heurc]
    exact min_le_right _ _
  · intro hle
    rw [heurc]
    exact min_eq_left (by linarith)
  · intro p hp hne
    have hpid : (pools.any fun q => q.poolId == p.poolId) = true :=
      List.any_eq_true.mpr ⟨p, hp, by simp⟩
    have hval : applyHedgeBoost pools w p.poolId
        = max (w p.poolId - (10/100) / ((pools.length : ℚ) - 1)) (5/100) := by
      have hne2 : (p.poolId == "EURC_USDC") = false := by
        simpa using hne
      rw [applyHedgeBoost, if_pos hcond]
      simp [hne2, hpid]
    exact ⟨hval, hval ▸ le_max_right _ _⟩

/-- C3 witness: SOL at +12% and EURC at +6% average to 9% volatility with the
hedge pair present, so the boost applies: EURC's flat 20% weight becomes 30%
(a full 10-point boost below the 40% cap) and SOL's weight becomes
`max (0.20 − 0.10/1) 0.05 = 0.10`, at or above the 5% floor. -/
theorem claim3_hedge_boost_witness :
    applyHedgeBoost [solPoolV, eurcPoolV] flatWeights "EURC_USDC"
        = min (flatWeights "EURC_USDC" + 10/100) (40/100) ∧
    applyHedgeBoost [solPoolV, eurcPoolV] flatWeights "EURC_USDC" ≤ 40/100 ∧
    (flatWeights "EURC_USDC" ≤ 30/100 →
      applyHedgeBoost [solPoolV, eurcPoolV] flatWeights "EURC_USDC"
        = flatWeights "EURC_USDC" + 10/100) ∧
    (∀ p ∈ [solPoolV, eurcPoolV], p.poolId ≠ "EURC_USDC" →
      applyHedgeBoost [solPoolV, eurcPoolV] flatWeights p.poolId
          = max (flatWeights p.poolId
              - (10/100) / (([solPoolV, eurcPoolV].length : ℚ) - 1)) (5/100) ∧
        5/100 ≤ applyHedgeBoost [solPoolV, eurcPoolV] flatWeights p.poolId) :=
  claim3_hedge_boost [solPoolV, eurcPoolV] flatWeights
    (by norm_num [avgVolatility, solPoolV, eurcPoolV])
    (by decide)

/-- C3 refuted as stated: the claim ties the adjustment to high volatility
alone, but with SOL at +12% and cbBTC flat (average 6% > 5%) and the hedge
pair *absent* from the selection, `applyHedgeStrategy` leaves every weight
untouched — no pool is boosted and nothing is redistributed. -/
theorem claim3_counterexample :
    avgVolatility [solPoolV, cbbtcPoolV] > 5 ∧
    applyHedgeBoost [solPoolV, cbbtcPoolV] flatWeights "SOL_USDC"
      = flatWeights "SOL_USDC" ∧
    applyHedgeBoost [solPoolV, cbbtcPoolV] flatWeights "CBBTC_USDC"
      = flatWeights "CBBTC_USDC" := by
  refine ⟨by norm_num [avgVolatility, solPoolV, cbbtcPoolV], ?_, ?_⟩ <;>
    simp +decide [applyHedgeBoost, avgVolatility, solPoolV, cbbtcPoolV, flatWeights]

/-! ### C5 -/

/-- C5 (amended): a successful `connect()` from a disconnected state resets
the attempt counter to 0; from a fresh service, six consecutive connect
failures (the explicit call plus five automatic retries) emit backoff timers
of `min (1000·2^k) 30000` ms for retries k = 1..5 — 2000, 4000, 8000, 16000,
30000 — followed by exactly one `ConnectionExhausted` error, after which the
service is disconnected with no retry pending, so no further attempt happens
until `connect()` is called explicitly. -/
theorem claim5_reconnect_budget (s : WSState) (h : s.isConnected = false) :
    (connectAttempt s true).1.reconnectAttempts = 0 ∧
    (connectAttempt s true).1.isConnected = true ∧
    runConnectAttempts initialWSState (List.replicate 6 false)
      = (⟨false, 5, false⟩,
        [WSEvent.retryScheduled 2000, WSEvent.retryScheduled 4000,
          WSEvent.retryScheduled 8000, WSEvent.retryScheduled 16000,
          WSEvent.retryScheduled 30000, WSEvent.connectionExhausted]) ∧
    ((runConnectAttempts initialWSState (List.replicate 6 false)).2.count
      WSEvent.connectionExhausted = 1) := by
  refine ⟨?_, ?_, by decide, by decide⟩ <;> simp [connectAttempt, h]

/-- C5 witness: instantiated at a mid-recovery state (3 failed attempts,
retry pending). -/
theorem claim5_reconnect_budget_witness :
    (connectAttempt ⟨false, 3, true⟩ true).1.reconnectAttempts = 0 ∧
    (connectAttempt ⟨false, 3, true⟩ true).1.isConnected = true ∧
    runConnectAttempts initialWSState (List.replicate 6 false)
      = (⟨false, 5, false⟩,
        [WSEvent.retryScheduled 2000, WSEvent.retryScheduled 4000,
          WSEvent.retryScheduled 8000, WSEvent.retryScheduled 16000,
          WSEvent.retryScheduled 30000, WSEvent.connectionExhausted]) ∧
    ((runConnectAttempts initialWSState (List.replicate 6 false)).2.count
      WSEvent.connectionExhausted = 1) :=
  claim5_reconnect_budget ⟨false, 3, true⟩ rfl

/-- C5 refuted as stated: after exactly 5 consecutive `connect()` failures
from a fresh service, no `ConnectionExhausted` has been emitted and a retry
timer is still pending — the service *does* make a 6th automatic attempt;
the exhaustion check (`attempts ≥ 5` before incrementing) only fires on the
6th failure. -/
theorem claim5_counterexample :
    (runConnectAttempts initialWSState (List.replicate 5 false)).2.count
      WSEvent.connectionExhausted = 0 ∧
    (runConnectAttempts initialWSState (List.replicate 5 false)).1.pendingRetry = true ∧
    (runConnectAttempts initialWSState (List.replicate 5 false)).1.isConnected = false := by
  decide

/-! ### C6 -/

/-- C6: the tick-emission pipeline never raises a `priceAlert` — the
`checkPriceAlert` routine implementing the claimed thresholds (none at ≤ 5%,
`medium` above 5%, `high` above 10%) has no caller — and the simulated tick
at the maximal random draw carries only a 0.5% change, so the 5% threshold is
unreachable from within the service. -/
theorem claim6_price_alert_dead_code :
    (∀ (pid : String) (basePrice r1 r2 r3 : ℚ),
      (simulationTickEvents pid basePrice r1 r2 r3).filter StreamEvent.isPriceAlert
        = []) ∧
    checkPriceAlert ⟨"SOL_USDC", 100, 12⟩
      = some ⟨"SOL_USDC", AlertSeverity.high⟩ ∧
    checkPriceAlert ⟨"SOL_USDC", 100, 7⟩
      = some ⟨"SOL_USDC", AlertSeverity.medium⟩ ∧
    checkPriceAlert ⟨"SOL_USDC", 100, 1/2⟩ = none ∧
    simulationTickEvents "SOL_USDC" 100 1 0 0
      = [StreamEvent.priceUpdate ⟨"SOL_USDC", 100 * (1 + 1/200), 1/2⟩] := by
  refine ⟨?_, ?_, ?_, ?_, by norm_num [simulationTickEvents]⟩
  · intro pid basePrice r1 r2 r3
    by_cases h : r2 > 7/10 <;>
      simp [simulationTickEvents, h, StreamEvent.isPriceAlert, List.filter]
  · rw [checkPriceAlert, if_pos (by norm_num), if_pos (by norm_num)]
  · rw [checkPriceAlert, if_pos (by norm_num)]
    norm_num
  · rw [checkPriceAlert,
      if_neg (by rw [abs_of_pos (show (0:ℚ) < 1/2 by norm_num)]; norm_num)]

/-! ### C9 -/

/-- C9: a cached pool snapshot no older than the 30-second window is returned
unchanged with no upstream contact and the entry kept; an entry strictly
older than the window is discarded and a fresh upstream fetch happens, whose
result is stored with the current timestamp and returned. -/
theorem claim9_cache_freshness {α : Type} (e : CacheEntry α) (now : ℤ) (up : α) :
    (now - e.timestamp ≤ CACHE_TTL →
      getPoolData true (some e) now true up = (some e.data, some e, false)) ∧
    (now - e.timestamp > CACHE_TTL →
      getPoolData true (some e) now true up = (some up, some ⟨up, now⟩, true)) := by
  constructor
  · intro h
    rw [getPoolData, getFromCache]
    simp [saveToCache, not_lt.mpr h]
  · intro h
    rw [getPoolData, getFromCache]
    simp [saveToCache, h]

/-- C9 witness: a 1-second-old entry is served from cache without an upstream
call. -/
theorem claim9_cache_freshness_witness :
    getPoolData true (some (⟨42, 0⟩ : CacheEntry ℤ)) 1000 true 7
      = (some 42, some ⟨42, 0⟩, false) :=
  (claim9_cache_freshness ⟨42, 0⟩ 1000 7).1 (by norm_num [CACHE_TTL])

/-! ### C7 -/

/-- C7 (amended): for every positive initial ratio and non-negative current
ratio the function succeeds and returns the *signed* percentage
`(2·√r/(1+r) − 1)·100`, which is never positive (the negation of the loss
magnitude); in particular at `r = 0` it returns −100 rather than
rejecting — the source performs no input validation. -/
theorem claim7_loss_signed_and_total (i c : ℝ) (hi : 0 < i) (hc : 0 ≤ c) :
    calculateImpermanentLoss i c ≤ 0 ∧
    (c = 0 → calculateImpermanentLoss i c = -100) := by
  constructor
  · rw [calculateImpermanentLoss]
    have hr : 0 ≤ c / i := div_nonneg hc hi.le
    have hs : 0 ≤ Real.sqrt (c / i) := Real.sqrt_nonneg _
    have hsq : Real.sqrt (c / i) ^ 2 = c / i := Real.sq_sqrt hr
    have hpos : 0 < 1 + c / i := by linarith
    have key : 2 * Real.sqrt (c / i) ≤ 1 + c / i := by
      nlinarith [sq_nonneg (Real.sqrt (c / i) - 1)]
    have hdiv : 2 * Real.sqrt (c / i) / (1 + c / i) ≤ 1 := by
      rw [div_le_one hpos]
      exact key
    nlinarith
  · intro h
    rw [h, calculateImpermanentLoss]
    simp [zero_div, Real.sqrt_zero]

/-- C7 witness: at `initial = 1`, `current = 4` the result is non-positive
(and defined). -/
theorem claim7_loss_signed_and_total_witness :
    calculateImpermanentLoss 1 4 ≤ 0 ∧
    ((4 : ℝ) = 0 → calculateImpermanentLoss 1 4 = -100) :=
  claim7_loss_signed_and_total 1 4 (by norm_num) (by norm_num)

/-- C7 refuted as stated: at ratio `r = 4` the function returns −20 — a
negative number, not the claimed non-negative magnitude — and at `r = 0`
(current ratio 0) it returns −100 instead of rejecting. -/
theorem claim7_counterexample :
    calculateImpermanentLoss 1 4 = -20 ∧ calculateImpermanentLoss 1 4 < 0 ∧
    calculateImpermanentLoss 1 0 = -100 := by
  have h4 : Real.sqrt 4 = 2 := by
    rw [show (4 : ℝ) = 2 ^ 2 by norm_num, Real.sqrt_sq (by norm_num : (0:ℝ) ≤ 2)]
  have hval : calculateImpermanentLoss 1 4 = -20 := by
    rw [calculateImpermanentLoss]
    norm_num [h4]
  refine ⟨hval, by rw [hval]; norm_num, ?_⟩
  rw [calculateImpermanentLoss]
  norm_num [Real.sqrt_zero]

/-! ### C8 -/

/-- C8: an unchanged ratio yields zero loss, and the loss at ratio `r` equals
the loss at ratio `1/r` (symmetry of the closed-form constant-product
formula under inverting the ratio direction). -/
theorem claim8_loss_identities (x r : ℝ) (hx : 0 < x) (hr : 0 < r) :
    calculateImpermanentLoss x x = 0 ∧
    calculateImpermanentLoss 1 r = calculateImpermanentLoss 1 r⁻¹ := by
  constructor
  · rw [calculateImpermanentLoss]
    rw [div_self hx.ne']
    simp [Real.sqrt_one]
    norm_num
  · obtain ⟨s, hs0, rfl⟩ : ∃ s : ℝ, 0 < s ∧ r = s ^ 2 :=
      ⟨Real.sqrt r, Real.sqrt_pos.mpr hr, (Real.sq_sqrt hr.le).symm⟩
    rw [calculateImpermanentLoss, calculateImpermanentLoss]
    simp only [div_one]
    rw [Real.sqrt_inv, Real.sqrt_sq hs0.le]
    have h1 : (1 : ℝ) + s ^ 2 ≠ 0 := by positivity
    have h2 : (1 : ℝ) + (s ^ 2)⁻¹ ≠ 0 := by positivity
    field_simp
    ring

/-- C8 witness: the identities instantiated at `x = 2`, `r = 4`. -/
theorem claim8_loss_identities_witness :
    calculateImpermanentLoss 2 2 = 0 ∧
    calculateImpermanentLoss 1 4 = calculateImpermanentLoss 1 4⁻¹ :=
  claim8_loss_identities 2 4 (by norm_num) (by norm_num)

end BestPool
